import Mathlib

/-!
Verification development for the node-cleanup script
paasta_tools/kubernetes/bin/cleanup_nodes.py.

The script lists the nodes of a Kubernetes cluster, filters out those whose
readiness check fails, and issues a deletion request for each filtered node.
We embed the data model (nodes with a list of status conditions), the three
functions is_node_ready, nodes_for_cleanup and terminate_nodes, and the main
driver, and prove properties about them.

Python functions can return values of several runtime types even when they
are annotated as returning bool; is_node_ready returns either a genuine
boolean or the raw condition-status string, and the caller then applies the
Python truthiness test. We model that runtime value with the PyVal type and
its truthiness with PyVal.truthy (a Python string is truthy exactly when it
is non-empty; a Python bool is its own truth value).
-/

namespace CleanupNodes

/-- Runtime value returned by is_node_ready: a Python bool or a Python str. -/
inductive PyVal where
  | bool (b : Bool)
  | str (s : String)
deriving DecidableEq, Repr

/-- Python truthiness of such a value: bools stand for themselves, a string
is truthy iff it is non-empty. -/
def PyVal.truthy : PyVal → Bool
  | .bool b => b
  | .str s => s != ""

/-- One entry of a node status condition list (fields used by the script). -/
structure V1NodeCondition where
  type : String
  status : String
deriving DecidableEq, Repr

/-- The status field of a node: its list of conditions. -/
structure V1NodeStatus where
  conditions : List V1NodeCondition
deriving DecidableEq, Repr

/-- Node metadata (the script only reads the name). -/
structure V1ObjectMeta where
  name : String
deriving DecidableEq, Repr

/-- A Kubernetes node as seen by the script. -/
structure V1Node where
  metadata : V1ObjectMeta
  status : V1NodeStatus
deriving DecidableEq, Repr

/-- The for-loop body of is_node_ready over the condition list: on the first
condition whose type equals Ready, return False if its status is Unknown and
otherwise return the status string itself; if the loop finds no such
condition, the function logs an error and returns True. -/
def is_node_ready_go : List V1NodeCondition → PyVal
  | [] => .bool true
  | condition :: rest =>
    if condition.type == "Ready" then
      if condition.status == "Unknown" then .bool false
      else .str condition.status
    else is_node_ready_go rest

/-- is_node_ready from the script, as the loop over node.status.conditions. -/
def is_node_ready (node : V1Node) : PyVal :=
  is_node_ready_go node.status.conditions

/-- nodes_for_cleanup from the script: the list comprehension keeping every
node for which not is_node_ready(node) holds under Python truthiness. -/
def nodes_for_cleanup (nodes : List V1Node) : List V1Node :=
  let not_ready := nodes.filter (fun node => !(is_node_ready node).truthy)
  not_ready

/-- An ApiException raised by the cluster API client. -/
structure ApiException where
  message : String
deriving DecidableEq, Repr

/-- Model of the Kubernetes API client together with the cluster control
plane it talks to: the node list a listing call returns, the externally
determined outcome of a delete request per node name (none means success,
some e means the request raises that ApiException), and the log of delete
requests issued so far. -/
structure KubeClient where
  all_nodes : List V1Node
  delete_outcome : String → Option ApiException
  delete_calls : List String

/-- get_all_nodes: the listing call against the cluster API. -/
def get_all_nodes (client : KubeClient) : List V1Node :=
  client.all_nodes

/-- client.core.delete_node: issues one deletion request, recording it in
the call log, and reports the externally determined outcome. -/
def delete_node (client : KubeClient) (node : String) :
    KubeClient × Option ApiException :=
  ({ client with delete_calls := client.delete_calls ++ [node] },
   client.delete_outcome node)

/-- The for-loop of terminate_nodes with its two accumulators: for each node
a deletion request is issued; on ApiException the pair is appended to the
error list and the loop continues; otherwise the node is appended to the
success list. -/
def terminate_nodes_loop (client : KubeClient) (success : List String)
    (errors : List (String × ApiException)) :
    List String → KubeClient × List String × List (String × ApiException)
  | [] => (client, success, errors)
  | node :: rest =>
    match (delete_node client node).2 with
    | some e =>
      terminate_nodes_loop (delete_node client node).1 success
        (errors ++ [(node, e)]) rest
    | none =>
      terminate_nodes_loop (delete_node client node).1 (success ++ [node])
        errors rest

/-- terminate_nodes from the script: runs the loop with empty accumulators
and returns the (success, errors) pair together with the updated client. -/
def terminate_nodes (client : KubeClient) (nodes : List String) :
    KubeClient × List String × List (String × ApiException) :=
  terminate_nodes_loop client [] [] nodes

/-- Observable result of one run of main: the success and error lists it
logs and the process exit code. -/
structure RunResult where
  success : List String
  errors : List (String × ApiException)
  exit_code : Nat
deriving DecidableEq, Repr

/-- main from the script: list all nodes, filter with nodes_for_cleanup,
and, unless the dry-run flag is set, call terminate_nodes on the metadata
names of the filtered nodes; in dry-run mode both result lists are empty.
The process exits with code 1 when the error list is non-empty (the Python
truthiness of a list) and 0 otherwise. The verbosity flag only affects
logging and is not modelled. -/
def main (dry_run : Bool) (client : KubeClient) : KubeClient × RunResult :=
  let all_nodes := get_all_nodes client
  let filtered_nodes := nodes_for_cleanup all_nodes
  let r :=
    if dry_run then (client, [], [])
    else terminate_nodes client (filtered_nodes.map (fun node => node.metadata.name))
  (r.1,
   { success := r.2.1
     errors := r.2.2
     exit_code := if r.2.2.isEmpty then 0 else 1 })

/-! ### Helper lemmas -/

/-- The readiness loop is the find-first-Ready-condition function. -/
theorem is_node_ready_go_eq_find (cs : List V1NodeCondition) :
    is_node_ready_go cs =
      match cs.find? (fun c => c.type == "Ready") with
      | none => PyVal.bool true
      | some c =>
        if c.status == "Unknown" then PyVal.bool false else PyVal.str c.status := by
  induction cs with
  | nil => rfl
  | cons c rest ih =>
    cases h : (c.type == "Ready") with
    | true => simp [is_node_ready_go, List.find?_cons, h]
    | false => simp [is_node_ready_go, List.find?_cons, h, ih]

/-- Characterization of the terminate_nodes loop: it issues exactly one
deletion request per input node in input order, and appends to the success
accumulator the nodes whose outcome is success and to the error accumulator
the failing nodes paired with their exceptions, both in input order. -/
theorem terminate_nodes_loop_spec (nodes : List String) :
    ∀ (client : KubeClient) (s : List String) (e : List (String × ApiException)),
    terminate_nodes_loop client s e nodes =
      ({ client with delete_calls := client.delete_calls ++ nodes },
       s ++ nodes.filter (fun n => (client.delete_outcome n).isNone),
       e ++ nodes.filterMap (fun n => (client.delete_outcome n).map (fun ex => (n, ex)))) := by
  induction nodes with
  | nil => intro client s e; simp [terminate_nodes_loop]
  | cons n rest ih =>
    intro client s e
    cases h : client.delete_outcome n with
    | none =>
      simp only [terminate_nodes_loop, delete_node, h]
      rw [ih]
      simp [h, List.filter_cons, List.filterMap_cons]
    | some ex =>
      simp only [terminate_nodes_loop, delete_node, h]
      rw [ih]
      simp [h, List.filter_cons, List.filterMap_cons]

/-- Characterization of terminate_nodes itself. -/
theorem terminate_nodes_spec (client : KubeClient) (nodes : List String) :
    terminate_nodes client nodes =
      ({ client with delete_calls := client.delete_calls ++ nodes },
       nodes.filter (fun n => (client.delete_outcome n).isNone),
       nodes.filterMap (fun n => (client.delete_outcome n).map (fun ex => (n, ex)))) := by
  simpa [terminate_nodes] using terminate_nodes_loop_spec nodes client [] []

/-- Exit-code arithmetic of main. -/
theorem exit_flag_spec (l : List (String × ApiException)) :
    ((if l.isEmpty then (0 : Nat) else 1) ≠ 0 ↔ l ≠ []) := by
  cases l <;> simp

/-- Projecting the first components out of the error list built by
terminate_nodes yields exactly the failing nodes, in input order. -/
theorem map_fst_filterMap_outcome (o : String → Option ApiException)
    (nodes : List String) :
    (nodes.filterMap (fun n => (o n).map (fun ex => (n, ex)))).map Prod.fst
      = nodes.filter (fun n => (o n).isSome) := by
  induction nodes with
  | nil => rfl
  | cons n rest ih =>
    cases h : o n <;> simp [List.filterMap_cons, List.filter_cons, h, ih]

/-! ### Concrete values used by witnesses and counterexamples -/

/-- A Ready condition with status Unknown. -/
def demoUnknownCondition : V1NodeCondition :=
  { type := "Ready", status := "Unknown" }

/-- A node whose single condition is a Ready condition with status Unknown. -/
def demoUnknownNode : V1Node :=
  { metadata := { name := "node-a" },
    status := { conditions := [demoUnknownCondition] } }

/-- A node with no Ready-type condition at all. -/
def demoNoReadyNode : V1Node :=
  { metadata := { name := "node-b" },
    status := { conditions := [{ type := "MemoryPressure", status := "False" }] } }

/-- A node whose Ready condition has status False: the interesting case for
the readiness check, since the Python value returned for it is the non-empty
string False, which is truthy. -/
def demoReadyFalseNode : V1Node :=
  { metadata := { name := "node-c" },
    status := { conditions := [{ type := "Ready", status := "False" }] } }

/-- A client whose cluster holds one not-ready node and whose delete
requests all succeed. -/
def demoClient : KubeClient :=
  { all_nodes := [demoUnknownNode]
    delete_outcome := fun _ => none
    delete_calls := [] }

/-! ### Claim theorems -/

/-- Claim C1, behaviour of the code at the failing input: for a node whose
Ready-type condition has status False, is_node_ready returns the raw string
False rather than the boolean false; that string is truthy under Python
semantics, so nodes_for_cleanup classifies the node as ready and does NOT
select it for deletion, contradicting the claim and the stated purpose of
the program (and the bool return annotation of is_node_ready). Only nodes
with status Unknown, or with an empty status string, are ever selected. -/
theorem c1_ready_false_node_not_selected :
    is_node_ready demoReadyFalseNode = PyVal.str "False"
    ∧ (is_node_ready demoReadyFalseNode).truthy = true
    ∧ nodes_for_cleanup [demoReadyFalseNode] = [] := by
  exact ⟨rfl, rfl, rfl⟩

/-- Claim C2: nodes_for_cleanup is a pure filter over the status field: it
equals List.filter of the negated Python truthiness of is_node_ready, its
output is a sublist of the input (same relative order, no other nodes), a
node is in the output iff it is in the input and its readiness value is
falsy, and is_node_ready depends only on the status field of the node. -/
theorem c2_nodes_for_cleanup_is_filter (nodes : List V1Node) :
    nodes_for_cleanup nodes = nodes.filter (fun node => !(is_node_ready node).truthy)
    ∧ (nodes_for_cleanup nodes).Sublist nodes
    ∧ (∀ node, node ∈ nodes_for_cleanup nodes ↔
        node ∈ nodes ∧ (is_node_ready node).truthy = false)
    ∧ (∀ n₁ n₂ : V1Node, n₁.status = n₂.status → is_node_ready n₁ = is_node_ready n₂) := by
  refine ⟨rfl, List.filter_sublist _, ?_, ?_⟩
  · intro node
    simp [nodes_for_cleanup, List.mem_filter]
  · intro n₁ n₂ h
    simp [is_node_ready, h]

/-- Witness for claim C2 at a concrete node list. -/
theorem c2_witness :
    nodes_for_cleanup [demoUnknownNode]
      = [demoUnknownNode].filter (fun node => !(is_node_ready node).truthy) :=
  (c2_nodes_for_cleanup_is_filter [demoUnknownNode]).1

/-- Claim C3: the run exits non-zero exactly when the error list is
non-empty, and in dry-run mode the error list is empty and the exit code is
zero. -/
theorem c3_exit_code (dry_run : Bool) (client : KubeClient) :
    ((main dry_run client).2.exit_code ≠ 0 ↔ (main dry_run client).2.errors ≠ [])
    ∧ (dry_run = true →
        (main dry_run client).2.errors = [] ∧ (main dry_run client).2.exit_code = 0) := by
  constructor
  · have h : (main dry_run client).2.exit_code
        = if (main dry_run client).2.errors.isEmpty then 0 else 1 := rfl
    rw [h]
    exact exit_flag_spec _
  · intro hd
    subst hd
    exact ⟨rfl, rfl⟩

/-- Witness for claim C3: dry run at a concrete client. -/
theorem c3_witness :
    (main true demoClient).2.errors = [] ∧ (main true demoClient).2.exit_code = 0 :=
  (c3_exit_code true demoClient).2 rfl

/-- Claim C4: terminate_nodes attempts a deletion for every input node (one
delete call per node, in input order, failures notwithstanding), and the
returned pair partitions the input: the success list is the subsequence of
nodes whose deletion succeeded and the error list pairs each failing node
with its exception, both in input order. -/
theorem c4_terminate_nodes_partitions (client : KubeClient) (nodes : List String) :
    (terminate_nodes client nodes).2.1
      = nodes.filter (fun n => (client.delete_outcome n).isNone)
    ∧ (terminate_nodes client nodes).2.2
      = nodes.filterMap (fun n => (client.delete_outcome n).map (fun ex => (n, ex)))
    ∧ ((terminate_nodes client nodes).2.2).map Prod.fst
      = nodes.filter (fun n => (client.delete_outcome n).isSome)
    ∧ (terminate_nodes client nodes).1.delete_calls = client.delete_calls ++ nodes := by
  rw [terminate_nodes_spec]
  exact ⟨rfl, rfl, map_fst_filterMap_outcome client.delete_outcome nodes, rfl⟩

/-- Witness for claim C4 at a concrete client and node list. -/
theorem c4_witness :
    (terminate_nodes demoClient ["node-a"]).1.delete_calls
      = demoClient.delete_calls ++ ["node-a"] :=
  (c4_terminate_nodes_partitions demoClient ["node-a"]).2.2.2

/-- Claim C5: in dry-run mode no deletion request is issued and the client
(and hence the cluster) is left unchanged; the success and error lists are
both empty. -/
theorem c5_dry_run_no_deletions (client : KubeClient) :
    (main true client).1 = client
    ∧ (main true client).1.delete_calls = client.delete_calls
    ∧ (main true client).2.success = [] ∧ (main true client).2.errors = [] := by
  exact ⟨rfl, rfl, rfl, rfl⟩

/-- Witness for claim C5 at a concrete client. -/
theorem c5_witness : (main true demoClient).1 = demoClient :=
  (c5_dry_run_no_deletions demoClient).1

/-- Claim C6: a non-dry run issues deletion requests for exactly the nodes
selected by nodes_for_cleanup from the full node list returned by the
cluster API, in that order, and for no other node. -/
theorem c6_pipeline_deletes_exactly_filtered (client : KubeClient) :
    (main false client).1.delete_calls =
      client.delete_calls
        ++ (nodes_for_cleanup (get_all_nodes client)).map (fun node => node.metadata.name) := by
  show (terminate_nodes client
      ((nodes_for_cleanup (get_all_nodes client)).map (fun node => node.metadata.name))).1.delete_calls = _
  rw [terminate_nodes_spec]

/-- Witness for claim C6 at a concrete client. -/
theorem c6_witness :
    (main false demoClient).1.delete_calls =
      demoClient.delete_calls
        ++ (nodes_for_cleanup (get_all_nodes demoClient)).map (fun node => node.metadata.name) :=
  c6_pipeline_deletes_exactly_filtered demoClient

/-- Claim C7: is_node_ready, nodes_for_cleanup and terminate_nodes are
total Lean functions defined by structural recursion on their input lists,
so every run terminates; the deletion loop issues exactly one delete call
per input node (so its call log grows by exactly the input list), and the
filter visits each node once, so its output is a sublist of the input of no
greater length. -/
theorem c7_single_pass (client : KubeClient) (nodes : List V1Node) (names : List String) :
    (terminate_nodes client names).1.delete_calls = client.delete_calls ++ names
    ∧ ((terminate_nodes client names).1.delete_calls).length
      = client.delete_calls.length + names.length
    ∧ (nodes_for_cleanup nodes).Sublist nodes
    ∧ (nodes_for_cleanup nodes).length ≤ nodes.length := by
  refine ⟨?_, ?_, List.filter_sublist _, List.length_filter_le _ _⟩
  · rw [terminate_nodes_spec]
  · rw [terminate_nodes_spec]
    simp

/-- Witness for claim C7 at a concrete client and lists. -/
theorem c7_witness :
    (terminate_nodes demoClient ["node-a"]).1.delete_calls
      = demoClient.delete_calls ++ ["node-a"]
    ∧ (nodes_for_cleanup [demoUnknownNode]).Sublist [demoUnknownNode] :=
  ⟨(c7_single_pass demoClient [demoUnknownNode] ["node-a"]).1,
   (c7_single_pass demoClient [demoUnknownNode] ["node-a"]).2.2.1⟩

/-- Claim C8: a node whose first Ready-type condition has status Unknown is
classified as not ready (is_node_ready returns the boolean false), so
whenever it appears in the input list, nodes_for_cleanup selects it. -/
theorem c8_unknown_status_selected (nodes : List V1Node) (node : V1Node)
    (c : V1NodeCondition)
    (hfind : node.status.conditions.find? (fun c => c.type == "Ready") = some c)
    (hstatus : c.status = "Unknown") (hmem : node ∈ nodes) :
    is_node_ready node = PyVal.bool false ∧ node ∈ nodes_for_cleanup nodes := by
  have hready : is_node_ready node = PyVal.bool false := by
    rw [is_node_ready, is_node_ready_go_eq_find, hfind]
    simp [hstatus]
  refine ⟨hready, ?_⟩
  simp [nodes_for_cleanup, List.mem_filter, hmem, hready, PyVal.truthy]

/-- Witness for claim C8 at a concrete node. -/
theorem c8_witness :
    is_node_ready demoUnknownNode = PyVal.bool false
    ∧ demoUnknownNode ∈ nodes_for_cleanup [demoUnknownNode] :=
  c8_unknown_status_selected [demoUnknownNode] demoUnknownNode demoUnknownCondition
    (by decide) rfl (by simp)

/-- Claim C9: a node with no Ready-type condition is treated as ready
(is_node_ready returns the boolean true), so nodes_for_cleanup never
selects it, whatever the input list. -/
theorem c9_no_ready_condition_not_selected (nodes : List V1Node) (node : V1Node)
    (h : ∀ c ∈ node.status.conditions, ¬ c.type = "Ready") :
    is_node_ready node = PyVal.bool true ∧ node ∉ nodes_for_cleanup nodes := by
  have hfind : node.status.conditions.find? (fun c => c.type == "Ready") = none := by
    apply List.find?_eq_none.mpr
    intro c hc
    simpa using h c hc
  have hready : is_node_ready node = PyVal.bool true := by
    rw [is_node_ready, is_node_ready_go_eq_find, hfind]
  refine ⟨hready, ?_⟩
  simp [nodes_for_cleanup, List.mem_filter, hready, PyVal.truthy]

/-- Witness for claim C9 at a concrete node. -/
theorem c9_witness :
    is_node_ready demoNoReadyNode = PyVal.bool true
    ∧ demoNoReadyNode ∉ nodes_for_cleanup [demoNoReadyNode] :=
  c9_no_ready_condition_not_selected [demoNoReadyNode] demoNoReadyNode (by decide)

/-- Claim C10: nodes_for_cleanup is contracting (its output is a sublist of
its input) and idempotent (applying it to its own output changes nothing). -/
theorem c10_cleanup_idempotent (nodes : List V1Node) :
    (nodes_for_cleanup nodes).Sublist nodes
    ∧ nodes_for_cleanup (nodes_for_cleanup nodes) = nodes_for_cleanup nodes := by
  refine ⟨List.filter_sublist _, ?_⟩
  simp [nodes_for_cleanup, List.filter_filter]

/-- Witness for claim C10 at a concrete node list. -/
theorem c10_witness :
    (nodes_for_cleanup [demoUnknownNode]).Sublist [demoUnknownNode]
    ∧ nodes_for_cleanup (nodes_for_cleanup [demoUnknownNode])
      = nodes_for_cleanup [demoUnknownNode] :=
  c10_cleanup_idempotent [demoUnknownNode]

end CleanupNodes
